import Mathlib

/-!
Verification of `dmsky/priors.py`: a shallow embedding of the prior-functor
class hierarchy (`PriorFunctor`, `FunctionPrior`, the concrete priors) and the
configuration-driven factory `create_prior_functor`, together with theorems
settling the specified properties.

Numeric values are modelled as real numbers.  External library routines
(`scipy.stats.norm(...).pdf`, `scipy.stats.lognorm(...).pdf`,
`scipy.interpolate.interp1d`) are embedded by their documented closed forms.
The helper modules `dmsky.utils.stat_funcs` and `dmsky.utils.tools` are part
of this repository but are not under `src/`; they are modelled from the spec,
as marked on their definitions.
-/

namespace Dmsky

noncomputable section

/-- The probability density of `scipy.stats.norm(loc=mu, scale=sigma)` at `x`,
as called by `NormPrior.__call__`. -/
def norm_pdf (mu sigma x : ℝ) : ℝ :=
  Real.exp (-(x - mu) ^ 2 / (2 * sigma ^ 2)) / (sigma * Real.sqrt (2 * Real.pi))

/-- The probability density of `scipy.stats.lognorm(s, scale=m)` at `x`, as
called by `LognormPrior.__call__` (with `s = self._sigma`, `m = self._mu`).
The lognormal density is zero for non-positive `x`. -/
def lognorm_pdf (s m x : ℝ) : ℝ :=
  if x ≤ 0 then 0
  else Real.exp (-(Real.log (x / m)) ^ 2 / (2 * s ^ 2)) /
    (x * s * Real.sqrt (2 * Real.pi))

/-- Smallest element of a list of reals (scipy's `x[0]` after sorting). -/
def listMin : List ℝ → ℝ
  | [] => 0
  | x :: r => r.foldl min x

/-- Largest element of a list of reals (scipy's `x[-1]` after sorting). -/
def listMax : List ℝ → ℝ
  | [] => 0
  | x :: r => r.foldl max x

/-- Piecewise-linear evaluation on a list of `(x, y)` knots sorted by `x`. -/
def linInterp : List (ℝ × ℝ) → ℝ → ℝ
  | [], _ => 0
  | [p], _ => p.2
  | p :: q :: rest, x =>
    if x ≤ q.1 then p.2 + (q.2 - p.2) * (x - p.1) / (q.1 - p.1)
    else linInterp (q :: rest) x

/-- `scipy.interpolate.interp1d(x, y, kind=kind, bounds_error=False,
fill_value=fv)` evaluated at `x0`: since `bounds_error=False`, any point below
the smallest or above the largest knot yields the fill value; in range, the
default `linear` kind interpolates piecewise linearly on the knots sorted by
abscissa.  This models the kinds used by `FileFuncPrior` at its default. -/
def interp1d_eval (xs ys : List ℝ) (fv x0 : ℝ) : ℝ :=
  if xs.isEmpty then fv
  else if x0 < listMin xs ∨ listMax xs < x0 then fv
  else linInterp ((xs.zip ys).mergeSort (fun a b => decide (a.1 ≤ b.1))) x0

namespace stat_funcs

/-- Modelled from the spec: `dmsky.utils.stat_funcs.gauss` is code of this
repository that is not under `src/`; the spec describes functype `gauss` as
"Gaussian truncated at zero". -/
def gauss (x mu sigma : ℝ) : ℝ :=
  if x < 0 then 0 else norm_pdf mu sigma x

/-- Modelled from the spec: `dmsky.utils.stat_funcs.lngauss` is not under
`src/`; it is the log-form paired with `gauss` in `GaussPrior`. -/
def lngauss (x mu sigma : ℝ) : ℝ :=
  Real.log (gauss x mu sigma)

/-- Modelled from the spec: `dmsky.utils.stat_funcs.lgauss` is not under
`src/`; the spec describes functype `lgauss` as "Gaussian in log-space", with
a `logpdf` flag (default false at the call sites in `priors.py`). -/
def lgauss (x mu sigma : ℝ) (logpdf : Bool) : ℝ :=
  if 0 < x ∧ 0 < mu then
    if logpdf then norm_pdf (Real.log mu) sigma (Real.log x)
    else norm_pdf (Real.log mu) sigma (Real.log x) / x
  else 0

/-- Modelled from the spec: `dmsky.utils.stat_funcs.lnlgauss` is not under
`src/`; it is the log-form paired with `lgauss`. -/
def lnlgauss (x mu sigma : ℝ) (logpdf : Bool) : ℝ :=
  Real.log (lgauss x mu sigma logpdf)

end stat_funcs

/-- Python exceptions that the factory and its callees can surface. -/
inductive PyErr where
  | keyError (msg : String)
  | typeError (msg : String)
  | nameError (msg : String)
  | valueError (msg : String)
deriving DecidableEq

/-- The prior-functor hierarchy of `priors.py`.  `FunctionPrior` carries an
arbitrary density `fn` and optional log-form `lnfn` (its subclasses
`GaussPrior`, `LGaussPrior`, `LGaussLikePrior`, `LGaussLogPrior` only fix
these); `LognormPrior`, `NormPrior` and `FileFuncPrior` are separate
subclasses of the base `PriorFunctor`. -/
inductive PriorFunctor where
  | FunctionPrior (funcname : String) (mu sigma : ℝ)
      (fn : ℝ → ℝ → ℝ → ℝ) (lnfn : Option (ℝ → ℝ → ℝ → ℝ))
  | LognormPrior (mu sigma : ℝ)
  | NormPrior (mu sigma : ℝ)
  | FileFuncPrior (filename : String) (mu sigma : ℝ)
      (x y : List ℝ) (kind : String) (fill_value : ℝ)

/-- `funcname`: `FunctionPrior` stores the name passed to it; the other
subclasses fix it in their `__init__`. -/
def PriorFunctor.funcname : PriorFunctor → String
  | .FunctionPrior n _ _ _ _ => n
  | .LognormPrior _ _ => "lognorm"
  | .NormPrior _ _ => "norm"
  | .FileFuncPrior _ _ _ _ _ _ _ => "file"

/-- `mean()`: every concrete subclass overrides the base and returns its
stored `self._mu`. -/
def PriorFunctor.mean : PriorFunctor → ℝ
  | .FunctionPrior _ mu _ _ _ => mu
  | .LognormPrior mu _ => mu
  | .NormPrior mu _ => mu
  | .FileFuncPrior _ mu _ _ _ _ _ => mu

/-- `sigma()`: every concrete subclass overrides the base and returns its
stored `self._sigma`. -/
def PriorFunctor.sigma : PriorFunctor → ℝ
  | .FunctionPrior _ _ s _ _ => s
  | .LognormPrior _ s => s
  | .NormPrior _ s => s
  | .FileFuncPrior _ _ s _ _ _ _ => s

/-- `__call__`: `FunctionPrior` evaluates `self._fn(x, self._mu,
self._sigma)`; `LognormPrior` and `NormPrior` delegate to scipy;
`FileFuncPrior` evaluates its interpolated function. -/
def PriorFunctor.call : PriorFunctor → ℝ → ℝ
  | .FunctionPrior _ mu s fn _, x => fn x mu s
  | .LognormPrior mu s, x => lognorm_pdf s mu x
  | .NormPrior mu s, x => norm_pdf mu s x
  | .FileFuncPrior _ _ _ xs ys _ fv, x => interp1d_eval xs ys fv x

/-- `log_value`: `FunctionPrior` overrides the base method, taking
`np.log(self._fn(x, mu, sigma))` when `self._lnfn is None` and
`self._lnfn(x, mu, sigma)` otherwise.  The other subclasses inherit the base
`PriorFunctor.log_value`, which is `np.log(self.__call__(x))`. -/
def PriorFunctor.log_value : PriorFunctor → ℝ → ℝ
  | .FunctionPrior _ mu s fn none, x => Real.log (fn x mu s)
  | .FunctionPrior _ mu s _ (some lnfn), x => lnfn x mu s
  | p, x => Real.log (p.call x)

/-- `normalization()`: `FunctionPrior` overrides the base with
`quad(self, *self.normalization_range())[0]`, but the name `quad` is neither
imported nor defined anywhere in `priors.py`, so evaluating the call
expression raises `NameError` before any integration happens.  The other
subclasses inherit the base method, which returns `1.`. -/
def PriorFunctor.normalization : PriorFunctor → Except PyErr ℝ
  | .FunctionPrior _ _ _ _ _ => .error (.nameError "quad")
  | _ => .ok 1

/-- `GaussPrior(mu, sigma)`: `FunctionPrior` with `stat_funcs.gauss` and
log-form `stat_funcs.lngauss`. -/
def GaussPrior (mu sigma : ℝ) : PriorFunctor :=
  .FunctionPrior "gauss" mu sigma (fun x m s => stat_funcs.gauss x m s)
    (some fun x m s => stat_funcs.lngauss x m s)

/-- `LGaussPrior(mu, sigma)`: `FunctionPrior` with `stat_funcs.lgauss` and
log-form `stat_funcs.lnlgauss` (the `logpdf` flag keeps its default). -/
def LGaussPrior (mu sigma : ℝ) : PriorFunctor :=
  .FunctionPrior "lgauss" mu sigma (fun x m s => stat_funcs.lgauss x m s false)
    (some fun x m s => stat_funcs.lnlgauss x m s false)

/-- `LGaussLikePrior(mu, sigma)`: argument-reversed `lgauss`. -/
def LGaussLikePrior (mu sigma : ℝ) : PriorFunctor :=
  .FunctionPrior "lgauss_like" mu sigma
    (fun x y s => stat_funcs.lgauss y x s false)
    (some fun x y s => stat_funcs.lnlgauss y x s false)

/-- `LGaussLogPrior(mu, sigma)`: `lgauss` with `logpdf=True`. -/
def LGaussLogPrior (mu sigma : ℝ) : PriorFunctor :=
  .FunctionPrior "lgauss_log" mu sigma
    (fun x y s => stat_funcs.lgauss x y s true)
    (some fun x y s => stat_funcs.lnlgauss x y s true)

/-- `LognormPrior(mu, sigma)`. -/
def LognormPrior (mu sigma : ℝ) : PriorFunctor :=
  .LognormPrior mu sigma

/-- `NormPrior(mu, sigma)`. -/
def NormPrior (mu sigma : ℝ) : PriorFunctor :=
  .NormPrior mu sigma

/-- The contents of a tabulated-prior file.  Modelled from the spec:
"Tabulated-prior file format: key-value data providing `mean`, `sigma`, `x`,
`y`, optional `kind` and `fill_value`, loaded once at construction."  Each
field is `none` when the file omits that key. -/
structure FileData where
  mean : Option ℝ
  sigma : Option ℝ
  x : Option (List ℝ)
  y : Option (List ℝ)
  kind : Option String
  fill_value : Option ℝ

/-- Modelled from the spec: `dmsky.utils.tools.yaml_load` is code of this
repository that is not under `src/`.  A file system maps a filename either to
the parsed key-value data of the file or to the loading error a malformed or
missing file produces. -/
def FileSystem : Type :=
  String → Except PyErr FileData

/-- Python's `d[k]` on a dictionary: the stored value, or `KeyError(k)` when
the key is missing. -/
def getItem {α : Type} (v : Option α) (k : String) : Except PyErr α :=
  match v with
  | some a => .ok a
  | none => .error (.keyError k)

/-- `FileFuncPrior.__init__(filename)`: loads the file once via `yaml_load`,
reads `mean`, `sigma`, `x`, `y` (raising `KeyError` when absent), defaults
`kind` to `'linear'` and `fill_value` to `0`, and constructs the
interpolator; `interp1d` rejects mismatched or too-short knot arrays with a
`ValueError`.  Any error from loading or interpolation propagates unchanged. -/
def FileFuncPrior.init (fs : FileSystem) (filename : String) :
    Except PyErr PriorFunctor := do
  let d ← fs filename
  let mu ← getItem d.mean "mean"
  let sigma ← getItem d.sigma "sigma"
  let xs ← getItem d.x "x"
  let ys ← getItem d.y "y"
  let kind := d.kind.getD "linear"
  let fv := d.fill_value.getD 0
  if xs.length = ys.length ∧ 2 ≤ xs.length then
    return .FileFuncPrior filename mu sigma xs ys kind fv
  else
    throw (.valueError "x and y arrays must have at least 2 entries and equal length")

/-- The configuration dictionary consumed by `create_prior_functor`: a
`functype` tag plus the parameter keys the recognized types use.  Each field
is `none` when the dictionary lacks that key. -/
structure Config where
  functype : Option String
  mu : Option ℝ
  sigma : Option ℝ
  filename : Option String

/-- The `if`/`elif` dispatch of `create_prior_functor` on the popped
`functype` tag (the tags are mutually exclusive string literals, so the
chain is a `match`).  `norm` and `lognorm` construct via `**d` unpacking (so
a leftover `filename` key or a missing `mu`/`sigma` is a `TypeError` from
the constructor call); `gauss`, `lgauss`, `lgauss_like`/`lgauss_lik` and
`lgauss_log` index `d['mu']` then `d['sigma']` directly (`KeyError` when
missing) and pass the tag on as the funcname; `interp` indexes
`d['filename']` and builds a `FileFuncPrior`; any other tag raises
`KeyError("Unrecognized prior_functor type %s" % functype)`. -/
def create_dispatch (fs : FileSystem) (functype : String) (d1 : Config) :
    Except PyErr PriorFunctor :=
  match functype with
  | "norm" =>
    match d1.filename with
    | some _ => .error (.typeError "unexpected keyword argument filename")
    | none =>
      match d1.mu, d1.sigma with
      | some m, some s => .ok (NormPrior m s)
      | none, _ => .error (.typeError "missing required argument mu")
      | some _, none => .error (.typeError "missing required argument sigma")
  | "lognorm" =>
    match d1.filename with
    | some _ => .error (.typeError "unexpected keyword argument filename")
    | none =>
      match d1.mu, d1.sigma with
      | some m, some s => .ok (LognormPrior m s)
      | none, _ => .error (.typeError "missing required argument mu")
      | some _, none => .error (.typeError "missing required argument sigma")
  | "gauss" => do
    let m ← getItem d1.mu "mu"
    let s ← getItem d1.sigma "sigma"
    return .FunctionPrior "gauss" m s
      (fun x mu sg => stat_funcs.gauss x mu sg)
      (some fun x mu sg => stat_funcs.lngauss x mu sg)
  | "lgauss" => do
    let m ← getItem d1.mu "mu"
    let s ← getItem d1.sigma "sigma"
    return .FunctionPrior "lgauss" m s
      (fun x mu sg => stat_funcs.lgauss x mu sg false)
      (some fun x mu sg => stat_funcs.lnlgauss x mu sg false)
  | "lgauss_like" => do
    let m ← getItem d1.mu "mu"
    let s ← getItem d1.sigma "sigma"
    return .FunctionPrior "lgauss_like" m s
      (fun x y sg => stat_funcs.lgauss y x sg false)
      (some fun x y sg => stat_funcs.lnlgauss y x sg false)
  | "lgauss_lik" => do
    let m ← getItem d1.mu "mu"
    let s ← getItem d1.sigma "sigma"
    return .FunctionPrior "lgauss_lik" m s
      (fun x y sg => stat_funcs.lgauss y x sg false)
      (some fun x y sg => stat_funcs.lnlgauss y x sg false)
  | "lgauss_log" => do
    let m ← getItem d1.mu "mu"
    let s ← getItem d1.sigma "sigma"
    return .FunctionPrior "lgauss_log" m s
      (fun x y sg => stat_funcs.lgauss x y sg true)
      (some fun x y sg => stat_funcs.lnlgauss x y sg true)
  | "interp" => do
    let fname ← getItem d1.filename "filename"
    FileFuncPrior.init fs fname
  | _ => .error (.keyError ("Unrecognized prior_functor type " ++ functype))

/-- The pair of the dispatch result and the post-call dictionary state:
`create_prior_functor` first pops `functype` (its only mutation of `d`) and
then dispatches on the popped tag. -/
def create_prior_functor (fs : FileSystem) (d : Config) :
    Except PyErr PriorFunctor × Config :=
  (create_dispatch fs (d.functype.getD "lgauss_like") { d with functype := none },
   { d with functype := none })

/-- State-passing translation of `__call__`: the method body of every
subclass is a single `return` expression with no attribute assignment, so the
receiver comes back unchanged. -/
def PriorFunctor.call_state : PriorFunctor → ℝ → ℝ × PriorFunctor
  | p@(.FunctionPrior _ mu s fn _), x => (fn x mu s, p)
  | p@(.LognormPrior mu s), x => (lognorm_pdf s mu x, p)
  | p@(.NormPrior mu s), x => (norm_pdf mu s x, p)
  | p@(.FileFuncPrior _ _ _ xs ys _ fv), x => (interp1d_eval xs ys fv x, p)

/-- State-passing translation of `log_value`: no method body assigns to any
attribute, so the receiver comes back unchanged. -/
def PriorFunctor.log_value_state : PriorFunctor → ℝ → ℝ × PriorFunctor
  | p@(.FunctionPrior _ mu s fn none), x => (Real.log (fn x mu s), p)
  | p@(.FunctionPrior _ mu s _ (some lnfn)), x => (lnfn x mu s, p)
  | p, x => (Real.log ((p.call_state x).1), p)

/-! Helper lemmas for reducing `Except` do-notation. -/

@[simp]
theorem okBind {ε α β : Type} (a : α) (f : α → Except ε β) :
    (Except.ok a : Except ε α) >>= f = f a :=
  rfl

@[simp]
theorem errBind {ε α β : Type} (e : ε) (f : α → Except ε β) :
    (Except.error e : Except ε α) >>= f = Except.error e :=
  rfl

@[simp]
theorem pureEqOk {ε α : Type} (a : α) :
    (pure a : Except ε α) = Except.ok a :=
  rfl

@[simp]
theorem throwEqErr {ε α : Type} (e : ε) :
    (throw e : Except ε α) = Except.error e :=
  rfl

/-! Theorems -/

/-- C9: `create_prior_functor` mutates its input dictionary: after any call,
including one that ends in the unrecognized-type error, the `functype` key
has been removed from the caller's dictionary `d`, while all other keys of
`d` are unchanged. -/
theorem create_prior_functor_pops_functype (fs : FileSystem) (d : Config) :
    (create_prior_functor fs d).2.functype = none ∧
    (create_prior_functor fs d).2.mu = d.mu ∧
    (create_prior_functor fs d).2.sigma = d.sigma ∧
    (create_prior_functor fs d).2.filename = d.filename :=
  ⟨rfl, rfl, rfl, rfl⟩

/-- C10: for every `FunctionPrior` instance (hence also for the subclasses
`GaussPrior`, `LGaussPrior`, `LGaussLikePrior`, `LGaussLogPrior`), calling
`normalization()` raises a `NameError`, because it invokes `quad`, a name
never imported or defined in the module; it can never return the integral it
documents. -/
theorem function_prior_normalization_nameerror (n : String) (mu s : ℝ)
    (fn : ℝ → ℝ → ℝ → ℝ) (lnfn : Option (ℝ → ℝ → ℝ → ℝ)) :
    (PriorFunctor.FunctionPrior n mu s fn lnfn).normalization =
      .error (.nameError "quad") :=
  rfl

/-- C6: a prior's stored parameters are never modified after construction:
evaluating `__call__` or `log_value` returns the receiver unchanged, a second
call on the resulting instance with the same argument returns the same value,
and `funcname`, `mean` and `sigma` are untouched. -/
theorem prior_eval_pure (p : PriorFunctor) (x : ℝ) :
    (p.call_state x).2 = p ∧ (p.log_value_state x).2 = p ∧
    ((p.call_state x).2.call_state x).1 = (p.call_state x).1 ∧
    ((p.log_value_state x).2.log_value_state x).1 = (p.log_value_state x).1 ∧
    (p.call_state x).2.funcname = p.funcname ∧
    (p.call_state x).2.mean = p.mean ∧
    (p.call_state x).2.sigma = p.sigma ∧
    (p.call_state x).1 = p.call x := by
  rcases p with ⟨n, mu, s, fn, l⟩ | ⟨mu, s⟩ | ⟨mu, s⟩ | ⟨f, mu, s, xs, ys, k, fv⟩
  · cases l <;>
      simp [PriorFunctor.call_state, PriorFunctor.log_value_state,
        PriorFunctor.call]
  all_goals
    simp [PriorFunctor.call_state, PriorFunctor.log_value_state,
      PriorFunctor.call]

/-- C3: `log_value(x)` equals the natural logarithm of `__call__(x)` for
priors without a dedicated log-form (a `FunctionPrior` with `lnfn=None`, and
the `PriorFunctor`-based `LognormPrior`, `NormPrior`, `FileFuncPrior`); when
a dedicated log-form `lnfn` is supplied, `log_value(x)` is exactly
`lnfn(x, mu, sigma)`. -/
theorem log_value_log_call_or_lnfn (p : PriorFunctor) (x : ℝ) :
    (∀ n mu s fn, p = .FunctionPrior n mu s fn none →
        p.log_value x = Real.log (p.call x)) ∧
    (∀ n mu s fn lnfn, p = .FunctionPrior n mu s fn (some lnfn) →
        p.log_value x = lnfn x mu s) ∧
    (∀ mu s, p = .LognormPrior mu s →
        p.log_value x = Real.log (p.call x)) ∧
    (∀ mu s, p = .NormPrior mu s →
        p.log_value x = Real.log (p.call x)) ∧
    (∀ f mu s xs ys k fv, p = .FileFuncPrior f mu s xs ys k fv →
        p.log_value x = Real.log (p.call x)) := by
  refine ⟨?_, ?_, ?_, ?_, ?_⟩
  · rintro n mu s fn rfl; rfl
  · rintro n mu s fn lnfn rfl; rfl
  · rintro mu s rfl; rfl
  · rintro mu s rfl; rfl
  · rintro f mu s xs ys k fv rfl; rfl

/-- Witness for C3 at a concrete prior: `LognormPrior(1, 1)` has no dedicated
log-form, so its `log_value` at `x = 1` is the log of its `__call__`. -/
theorem log_value_log_call_or_lnfn_witness :
    (LognormPrior 1 1).log_value 1 = Real.log ((LognormPrior 1 1).call 1) :=
  (log_value_log_call_or_lnfn (LognormPrior 1 1) 1).2.2.1 1 1 rfl

/-- C8: a configuration without a `functype` key does not raise:
`d.pop('functype', 'lgauss_like')` defaults the tag to `lgauss_like`, so the
factory returns the `FunctionPrior` wrapping the argument-reversed log-space
Gaussian built from `d['mu']` and `d['sigma']`. -/
theorem create_prior_functor_default_lgauss_like (fs : FileSystem)
    (d : Config) (m s : ℝ) (h1 : d.functype = none) (h2 : d.mu = some m)
    (h3 : d.sigma = some s) :
    (create_prior_functor fs d).1 =
      .ok (.FunctionPrior "lgauss_like" m s
        (fun x y sg => stat_funcs.lgauss y x sg false)
        (some fun x y sg => stat_funcs.lnlgauss y x sg false)) := by
  simp [create_prior_functor, create_dispatch, h1, h2, h3, getItem]

/-- Witness for C8: a concrete configuration with no `functype` key. -/
theorem create_prior_functor_default_lgauss_like_witness :
    (create_prior_functor (fun _ => .error (.valueError "no file"))
        ⟨none, some 1, some 2, none⟩).1 =
      .ok (.FunctionPrior "lgauss_like" 1 2
        (fun x y sg => stat_funcs.lgauss y x sg false)
        (some fun x y sg => stat_funcs.lnlgauss y x sg false)) :=
  create_prior_functor_default_lgauss_like _ _ 1 2 rfl rfl rfl

/-- C4: a `FileFuncPrior` called at a point outside the closed interval from
the smallest to the largest tabulated abscissa returns the configured fill
value rather than raising a bounds error; and construction from a file that
omits `fill_value` configures the default fill value `0`. -/
theorem filefunc_out_of_range_fill_value :
    (∀ (f : String) (mu s : ℝ) (xs ys : List ℝ) (k : String) (fv x : ℝ),
        (x < listMin xs ∨ listMax xs < x) →
        (PriorFunctor.FileFuncPrior f mu s xs ys k fv).call x = fv) ∧
    (∀ (fs : FileSystem) (fname : String) (fd : FileData) (m sg : ℝ)
        (xs ys : List ℝ),
        fs fname = .ok fd → fd.mean = some m → fd.sigma = some sg →
        fd.x = some xs → fd.y = some ys → fd.fill_value = none →
        xs.length = ys.length → 2 ≤ xs.length →
        FileFuncPrior.init fs fname =
          .ok (.FileFuncPrior fname m sg xs ys (fd.kind.getD "linear") 0)) := by
  constructor
  · intro f mu s xs ys k fv x h
    show interp1d_eval xs ys fv x = fv
    unfold interp1d_eval
    cases xs with
    | nil => simp
    | cons a r => simp [h]
  · intro fs fname fd m sg xs ys hload hm hs hx hy hfv hlen h2
    unfold FileFuncPrior.init
    simp [hload, hm, hs, hx, hy, hfv, getItem, hlen, h2]
    omega

/-- Witness for C4: the point `5` lies above the largest abscissa `1` of a
concrete two-knot table, and the call returns the fill value `7`. -/
theorem filefunc_out_of_range_fill_value_witness :
    (PriorFunctor.FileFuncPrior "f" 0 1 [0, 1] [3, 4] "linear" 7).call 5 = 7 :=
  filefunc_out_of_range_fill_value.1 "f" 0 1 [0, 1] [3, 4] "linear" 7 5
    (Or.inr (by norm_num [listMax]))

/-- C1: for every supported `functype`, the prior returned by
`create_prior_functor` has `mean()` equal to the supplied `mu` and `sigma()`
equal to the supplied `sigma`.  For `norm`, `lognorm`, `gauss`, `lgauss`,
`lgauss_like` and `lgauss_log` the parameters are the `mu` and `sigma`
entries of the configuration dictionary; for `interp` they are supplied as
the `mean` and `sigma` entries of the tabulated-prior file. -/
theorem create_prior_functor_mean_sigma (fs : FileSystem) (d : Config)
    (m s : ℝ) :
    ((d.mu = some m ∧ d.sigma = some s ∧ d.filename = none ∧
        (d.functype = some "norm" ∨ d.functype = some "lognorm" ∨
         d.functype = some "gauss" ∨ d.functype = some "lgauss" ∨
         d.functype = some "lgauss_like" ∨ d.functype = some "lgauss_log")) →
      ∃ p, (create_prior_functor fs d).1 = .ok p ∧
        p.mean = m ∧ p.sigma = s) ∧
    (∀ fname fd xs ys, d.functype = some "interp" → d.filename = some fname →
        fs fname = .ok fd → fd.mean = some m → fd.sigma = some s →
        fd.x = some xs → fd.y = some ys → xs.length = ys.length →
        2 ≤ xs.length →
      ∃ p, (create_prior_functor fs d).1 = .ok p ∧
        p.mean = m ∧ p.sigma = s) := by
  constructor
  · rintro ⟨hm, hs, hf, (ht | ht | ht | ht | ht | ht)⟩
    · refine ⟨NormPrior m s, ?_, rfl, rfl⟩
      simp [create_prior_functor, create_dispatch, ht, hm, hs, hf]
    · refine ⟨LognormPrior m s, ?_, rfl, rfl⟩
      simp [create_prior_functor, create_dispatch, ht, hm, hs, hf]
    · refine ⟨.FunctionPrior "gauss" m s
        (fun x mu sg => stat_funcs.gauss x mu sg)
        (some fun x mu sg => stat_funcs.lngauss x mu sg), ?_, rfl, rfl⟩
      simp [create_prior_functor, create_dispatch, ht, hm, hs, hf, getItem]
    · refine ⟨.FunctionPrior "lgauss" m s
        (fun x mu sg => stat_funcs.lgauss x mu sg false)
        (some fun x mu sg => stat_funcs.lnlgauss x mu sg false), ?_, rfl, rfl⟩
      simp [create_prior_functor, create_dispatch, ht, hm, hs, hf, getItem]
    · refine ⟨.FunctionPrior "lgauss_like" m s
        (fun x y sg => stat_funcs.lgauss y x sg false)
        (some fun x y sg => stat_funcs.lnlgauss y x sg false), ?_, rfl, rfl⟩
      simp [create_prior_functor, create_dispatch, ht, hm, hs, hf, getItem]
    · refine ⟨.FunctionPrior "lgauss_log" m s
        (fun x y sg => stat_funcs.lgauss x y sg true)
        (some fun x y sg => stat_funcs.lnlgauss x y sg true), ?_, rfl, rfl⟩
      simp [create_prior_functor, create_dispatch, ht, hm, hs, hf, getItem]
  · intro fname fd xs ys ht hf hload hm hs hx hy hlen h2
    refine ⟨.FileFuncPrior fname m s xs ys (fd.kind.getD "linear")
      (fd.fill_value.getD 0), ?_, rfl, rfl⟩
    simp [create_prior_functor, create_dispatch, FileFuncPrior.init, ht, hf, hload, hm, hs, hx, hy, getItem, hlen, h2]
    omega

/-- Witness for C1: the `norm` functype with `mu = 3`, `sigma = 2`. -/
theorem create_prior_functor_mean_sigma_witness :
    ∃ p, (create_prior_functor (fun _ => .error (.valueError "no file"))
        ⟨some "norm", some 3, some 2, none⟩).1 = .ok p ∧
      p.mean = 3 ∧ p.sigma = 2 :=
  (create_prior_functor_mean_sigma (fun _ => .error (.valueError "no file"))
      ⟨some "norm", some 3, some 2, none⟩ 3 2).1
    ⟨rfl, rfl, rfl, Or.inl rfl⟩

/-- C7: with a recognized `functype` but a missing required parameter key, or
with a malformed tabulated-prior file, `create_prior_functor` lets the
underlying lookup, data-loading or interpolation error propagate unchanged,
adding no handling of its own: a direct-indexing branch surfaces the
`KeyError` of the missing dictionary key, the `**d`-unpacking branches
surface the constructor call's `TypeError`, a failing file load is returned
exactly as the loader produced it, and missing file keys or mismatched knot
arrays surface the loader's `KeyError` or the interpolator's `ValueError`. -/
theorem create_prior_functor_error_propagation (fs : FileSystem)
    (d : Config) :
    (d.functype = some "gauss" → d.mu = none →
        (create_prior_functor fs d).1 = .error (.keyError "mu")) ∧
    (∀ m, d.functype = some "gauss" → d.mu = some m → d.sigma = none →
        (create_prior_functor fs d).1 = .error (.keyError "sigma")) ∧
    (d.functype = some "norm" → d.filename = none → d.mu = none →
        (create_prior_functor fs d).1 =
          .error (.typeError "missing required argument mu")) ∧
    (d.functype = some "interp" → d.filename = none →
        (create_prior_functor fs d).1 = .error (.keyError "filename")) ∧
    (∀ f e, d.functype = some "interp" → d.filename = some f →
        fs f = .error e → (create_prior_functor fs d).1 = .error e) ∧
    (∀ f fd, d.functype = some "interp" → d.filename = some f →
        fs f = .ok fd → fd.mean = none →
        (create_prior_functor fs d).1 = .error (.keyError "mean")) ∧
    (∀ f fd m sg xs ys, d.functype = some "interp" → d.filename = some f →
        fs f = .ok fd → fd.mean = some m → fd.sigma = some sg →
        fd.x = some xs → fd.y = some ys →
        ¬(xs.length = ys.length ∧ 2 ≤ xs.length) →
        (create_prior_functor fs d).1 =
          .error (.valueError
            "x and y arrays must have at least 2 entries and equal length")) := by
  refine ⟨?_, ?_, ?_, ?_, ?_, ?_, ?_⟩
  · intro ht hm
    simp [create_prior_functor, create_dispatch, ht, hm, getItem]
  · intro m ht hm hs
    simp [create_prior_functor, create_dispatch, ht, hm, hs, getItem]
  · intro ht hf hm
    simp [create_prior_functor, create_dispatch, ht, hf, hm]
  · intro ht hf
    simp [create_prior_functor, create_dispatch, ht, hf, getItem]
  · intro f e ht hf hload
    simp [create_prior_functor, create_dispatch, FileFuncPrior.init, ht, hf, hload, getItem]
  · intro f fd ht hf hload hm
    simp [create_prior_functor, create_dispatch, FileFuncPrior.init, ht, hf, hload, hm, getItem]
  · intro f fd m sg xs ys ht hf hload hm hs hx hy hbad
    simp [create_prior_functor, create_dispatch, FileFuncPrior.init, ht, hf, hload, hm, hs, hx, hy, getItem, hbad]

/-- Witness for C7: the `gauss` functype with no `mu` key surfaces the
dictionary lookup's `KeyError("mu")`. -/
theorem create_prior_functor_error_propagation_witness :
    (create_prior_functor (fun _ => .error (.valueError "no file"))
        ⟨some "gauss", none, none, none⟩).1 = .error (.keyError "mu") :=
  (create_prior_functor_error_propagation
      (fun _ => .error (.valueError "no file"))
      ⟨some "gauss", none, none, none⟩).1 rfl rfl

/-- The functype tags recognized by `create_prior_functor`'s dispatch. -/
def recognized_types : List String :=
  ["norm", "lognorm", "gauss", "lgauss", "lgauss_like", "lgauss_lik",
   "lgauss_log", "interp"]

/-- A short key name is never the unrecognized-functype message, whatever the
tag appended to it. -/
theorem ne_unrecognized_msg (k : String) (hk : k.length < 32) (s : String) :
    k ≠ "Unrecognized prior_functor type " ++ s := by
  intro h
  have h2 := congrArg String.length h
  rw [String.length_append] at h2
  have h3 : ("Unrecognized prior_functor type ").length = 32 := rfl
  omega

/-- Every outcome of `FileFuncPrior.__init__`: success, the file loader's own
error unchanged, a `KeyError` on a short key name, or the interpolator's
`ValueError`. -/
theorem fileFuncInitCases (fs : FileSystem) (f : String) :
    (∃ p, FileFuncPrior.init fs f = .ok p) ∨
    (∃ e, fs f = .error e ∧ FileFuncPrior.init fs f = .error e) ∨
    (∃ k, k.length < 32 ∧ FileFuncPrior.init fs f = .error (.keyError k)) ∨
    (∃ msg, FileFuncPrior.init fs f = .error (.valueError msg)) := by
  unfold FileFuncPrior.init
  cases hload : fs f with
  | error e => exact Or.inr (Or.inl ⟨e, rfl, by simp⟩)
  | ok fd =>
    obtain ⟨fm, fsg, fx, fy, fk, ff⟩ := fd
    cases fm with
    | none =>
      exact Or.inr (Or.inr (Or.inl ⟨"mean", by decide, by simp [getItem]⟩))
    | some m =>
      cases fsg with
      | none =>
        exact Or.inr (Or.inr (Or.inl ⟨"sigma", by decide, by simp [getItem]⟩))
      | some sg =>
        cases fx with
        | none =>
          exact Or.inr (Or.inr (Or.inl ⟨"x", by decide, by simp [getItem]⟩))
        | some xs =>
          cases fy with
          | none =>
            exact Or.inr (Or.inr (Or.inl ⟨"y", by decide, by simp [getItem]⟩))
          | some ys =>
            by_cases hc : xs.length = ys.length ∧ 2 ≤ xs.length
            · refine Or.inl ⟨.FileFuncPrior f m sg xs ys (fk.getD "linear")
                (ff.getD 0), ?_⟩
              simp only [getItem, okBind]
              rw [if_pos hc]
              rfl
            · refine Or.inr (Or.inr (Or.inr
                ⟨"x and y arrays must have at least 2 entries and equal length", ?_⟩))
              simp only [getItem, okBind]
              rw [if_neg hc]
              rfl

/-- C2: given a `functype` that is not one of the recognized tags,
`create_prior_functor` raises a `KeyError` whose message names the
unrecognized tag, and this is the only error the function raises by its own
handling: on a recognized tag the result is never an unrecognized-type
`KeyError` (the hypothesis on `fs` says only that the external file loader
does not itself fabricate that exact message). -/
theorem create_prior_functor_unrecognized_keyerror (fs : FileSystem)
    (d : Config)
    (hfs : ∀ f e, fs f = .error e →
        ∀ s, e ≠ .keyError ("Unrecognized prior_functor type " ++ s)) :
    (∀ ft, d.functype = some ft → ft ∉ recognized_types →
        (create_prior_functor fs d).1 =
          .error (.keyError ("Unrecognized prior_functor type " ++ ft))) ∧
    (∀ s, d.functype.getD "lgauss_like" ∈ recognized_types →
        (create_prior_functor fs d).1 ≠
          .error (.keyError ("Unrecognized prior_functor type " ++ s))) := by
  constructor
  · intro ft hft hnot
    simp only [recognized_types, List.mem_cons, List.not_mem_nil,
      or_false, not_or] at hnot
    have hshow : (create_prior_functor fs d).1 =
        create_dispatch fs (d.functype.getD "lgauss_like")
          { d with functype := none } := rfl
    rw [hshow, hft]
    simp only [Option.getD_some]
    rw [create_dispatch.eq_def]
    split <;> simp_all
  · intro s hrec
    have hshow : (create_prior_functor fs d).1 =
        create_dispatch fs (d.functype.getD "lgauss_like")
          { d with functype := none } := rfl
    rw [hshow]
    simp only [recognized_types, List.mem_cons, List.not_mem_nil,
      or_false] at hrec
    rcases hrec with h | h | h | h | h | h | h | h <;> rw [h]
    · simp only [create_dispatch]
      cases d.filename
      · cases d.mu <;> cases d.sigma <;> simp
      · simp
    · simp only [create_dispatch]
      cases d.filename
      · cases d.mu <;> cases d.sigma <;> simp
      · simp
    · simp only [create_dispatch]
      cases d.mu <;> cases d.sigma <;> simp [getItem] <;>
        exact ne_unrecognized_msg _ (by decide) s
    · simp only [create_dispatch]
      cases d.mu <;> cases d.sigma <;> simp [getItem] <;>
        exact ne_unrecognized_msg _ (by decide) s
    · simp only [create_dispatch]
      cases d.mu <;> cases d.sigma <;> simp [getItem] <;>
        exact ne_unrecognized_msg _ (by decide) s
    · simp only [create_dispatch]
      cases d.mu <;> cases d.sigma <;> simp [getItem] <;>
        exact ne_unrecognized_msg _ (by decide) s
    · simp only [create_dispatch]
      cases d.mu <;> cases d.sigma <;> simp [getItem] <;>
        exact ne_unrecognized_msg _ (by decide) s
    · simp only [create_dispatch]
      cases hfn : d.filename with
      | none =>
        simp [getItem]
        exact ne_unrecognized_msg _ (by decide) s
      | some f =>
        rcases fileFuncInitCases fs f with ⟨p, hp⟩ | ⟨e, he, hp⟩ |
          ⟨k, hk, hp⟩ | ⟨msg, hp⟩
        · simp [getItem, hp]
        · simp [getItem, hp]
          exact hfs f e he s
        · simp [getItem, hp]
          exact ne_unrecognized_msg k hk s
        · simp [getItem, hp]

/-- Witness for C2: the unrecognized tag `foo` produces exactly the
`KeyError` naming it. -/
theorem create_prior_functor_unrecognized_keyerror_witness :
    (create_prior_functor (fun _ => .error (.valueError "no file"))
        ⟨some "foo", none, none, none⟩).1 =
      .error (.keyError ("Unrecognized prior_functor type " ++ "foo")) :=
  (create_prior_functor_unrecognized_keyerror
      (fun _ => .error (.valueError "no file"))
      ⟨some "foo", none, none, none⟩
      (fun _ e he => by injection he with h; simp [← h])).1
    "foo" rfl (by decide)

/-- C5 counterexample: the claim that every prior evaluated at its own mean
returns the peak value of the wrapped density fails for `LognormPrior(1, 1)`:
the density at the mean, `1/√(2π)`, is strictly below the density at
`exp(-1)` (the lognormal mode), so `__call__(mean())` is not the density's
maximum. -/
theorem lognorm_call_mean_not_peak :
    (LognormPrior 1 1).call ((LognormPrior 1 1).mean) <
      (LognormPrior 1 1).call (Real.exp (-1)) := by
  have hx : (0 : ℝ) < Real.exp (-1) := Real.exp_pos _
  show lognorm_pdf 1 1 1 < lognorm_pdf 1 1 (Real.exp (-1))
  unfold lognorm_pdf
  rw [if_neg (by norm_num), if_neg (not_le.mpr hx)]
  simp only [div_one, Real.log_one, Real.log_exp, one_pow, mul_one, one_mul,
    neg_zero, zero_pow, zero_div, Real.exp_zero, ne_eq, OfNat.ofNat_ne_zero,
    not_false_iff]
  rw [div_mul_eq_div_div, ← Real.exp_sub]
  have hs : (0 : ℝ) < Real.sqrt (2 * Real.pi) :=
    Real.sqrt_pos.mpr (by positivity)
  rw [div_lt_div_iff_of_pos_right hs]
  rw [show -(-1 : ℝ) ^ 2 / 2 - -1 = 1 / 2 by norm_num]
  exact Real.one_lt_exp_iff.mpr (by norm_num)

/-- C5 amended: evaluating a prior at its mean returns the closed-form value
of the wrapped density at `x = mu`.  For `NormPrior` this is
`1/(sigma*sqrt(2*pi))`, which is also the global maximum of its density; for
`LognormPrior` it is `1/(mu*sigma*sqrt(2*pi))`, which by the counterexample
is not in general the density's peak; for the `FunctionPrior`-based priors it
is `fn(mu, mu, sigma)`, the wrapped function's own closed form at the mean. -/
theorem call_at_mean_closed_form (mu sg : ℝ) (hm : 0 < mu) (hs : 0 < sg) :
    (NormPrior mu sg).call ((NormPrior mu sg).mean) =
      1 / (sg * Real.sqrt (2 * Real.pi)) ∧
    (∀ x, (NormPrior mu sg).call x ≤ 1 / (sg * Real.sqrt (2 * Real.pi))) ∧
    (LognormPrior mu sg).call ((LognormPrior mu sg).mean) =
      1 / (mu * sg * Real.sqrt (2 * Real.pi)) ∧
    (∀ n fn lnfn, (PriorFunctor.FunctionPrior n mu sg fn lnfn).call
        ((PriorFunctor.FunctionPrior n mu sg fn lnfn).mean) = fn mu mu sg) := by
  refine ⟨?_, ?_, ?_, fun n fn lnfn => rfl⟩
  · show norm_pdf mu sg mu = 1 / (sg * Real.sqrt (2 * Real.pi))
    unfold norm_pdf
    simp
  · intro x
    show norm_pdf mu sg x ≤ 1 / (sg * Real.sqrt (2 * Real.pi))
    unfold norm_pdf
    have hden : (0 : ℝ) < sg * Real.sqrt (2 * Real.pi) := by positivity
    rw [div_le_div_iff_of_pos_right hden]
    rw [Real.exp_le_one_iff]
    apply div_nonpos_of_nonpos_of_nonneg
    · simpa using sq_nonneg (x - mu)
    · positivity
  · show lognorm_pdf sg mu mu = 1 / (mu * sg * Real.sqrt (2 * Real.pi))
    unfold lognorm_pdf
    rw [if_neg (not_le.mpr hm), div_self (ne_of_gt hm)]
    simp

/-- Witness for C5 (amended) at `mu = 1`, `sigma = 1`: the normal prior's
value at its mean is the closed-form peak. -/
theorem call_at_mean_closed_form_witness :
    (NormPrior 1 1).call ((NormPrior 1 1).mean) =
      1 / (1 * Real.sqrt (2 * Real.pi)) :=
  (call_at_mean_closed_form 1 1 one_pos one_pos).1

end

end Dmsky
